import Mathlib

/-!
A shallow embedding of `src/bin/jester.js`: the test-module discovery walk
(`FindTestModules`, `GetEntries`, `GetEntryStats`), the concurrent test
executor (`RunTests`), the coverage recorder (`StartCoverage`,
`ClearCoverageDirectory`, `WriteCoverageResults`) and the aggregation /
exit-code logic of the `jester` entry point.

Modelling conventions:
* The behaviour of a user assertion body is abstracted as an outcome
  (`AssertBehavior`): it either returns normally, throws an
  `AssertionError`, or throws any other error.
* The consumed logger interface is modelled as a list of emitted events.
* Callback-style filesystem and inspector-session operations are modelled
  as `Except`-valued oracles supplied as parameters: an `.error` value is a
  promise rejection of the underlying operation.
* `setUp` and `tearDown` are the zero-argument hooks of a module; the
  executor model records whether they ran in a per-unit trace.
-/

deriving instance DecidableEq for Except

namespace Jester

/-- Outcome of invoking an assertion function (`await ...function()` in
`RunTests`, line 128): normal completion, a thrown `AssertionError`, or a
thrown error of any other kind. -/
inductive AssertBehavior where
  | ok
  | assertionError
  | otherError
deriving Repr, DecidableEq

/-- One assertion definition inside a module's `assertions` mapping.
`fn = none` models a definition whose `function` field is absent or not
callable (JS: invoking it throws a `TypeError`); `some b` models a callable
body behaving as `b`.  `skip` is the definition's `skip` flag, with the JS
`... || false` default for an absent flag folded into the `Bool`. -/
structure AssertionDef where
  fn : Option AssertBehavior
  skip : Bool
deriving Repr, DecidableEq

/-- A discovered test module (JSDoc typedef, line 12): an id and an
insertion-ordered `assertions` mapping, modelled as an association list. -/
structure TestModule where
  id : String
  assertions : List (String × AssertionDef)
deriving Repr, DecidableEq

/-- `AssertionResult` (JSDoc typedef, line 13). -/
structure AssertionResult where
  testModuleId : String
  assertionId : String
  result : Bool
  skipped : Bool
deriving Repr, DecidableEq

/-- Invoking `eachTestModule.assertions[eachAssertionId].function()`
(line 128).  When the `function` field is missing, the call itself throws a
`TypeError`, which is not an `AssertionError`. -/
def invokeAssertion (d : AssertionDef) : AssertBehavior :=
  match d.fn with
  | none => .otherError
  | some b => b

/-- Trace of one assertion unit (the async closure of lines 118-145):
whether the assertion function was invoked, whether `tearDown` ran, whether
the unit called `reject` (a fatal, non-`AssertionError` throw), and the
record passed to `resolve` (observable only when the unit did not reject,
since a promise settles once). -/
structure UnitTrace where
  fnInvoked : Bool
  tearDownRan : Bool
  rejected : Bool
  resultRecord : AssertionResult
deriving Repr, DecidableEq

/-- One assertion unit of `RunTests` (lines 118-145).  `skipped` is
`config.dryRun || def.skip || false` (lines 120-123); `result` starts as
`skipped || true` (line 125); a thrown `AssertionError` sets `result =
false` and execution continues, any other throw rejects the unit but the
following `tearDown()` and `resolve` still execute (lines 126-144). -/
def runUnit (moduleId assertionId : String) (d : AssertionDef) (dryRun : Bool) :
    UnitTrace :=
  let skipped := dryRun || d.skip || false
  let res0 := skipped || true
  let step :=
    if !skipped then
      match invokeAssertion d with
      | .ok => (true, res0, false)
      | .assertionError => (true, false, false)
      | .otherError => (true, res0, true)
    else (false, res0, false)
  { fnInvoked := step.1
    tearDownRan := true
    rejected := step.2.2
    resultRecord :=
      { testModuleId := moduleId
        assertionId := assertionId
        result := step.2.1
        skipped := skipped } }

/-- All units launched by `RunTests` (lines 115-148): one per assertion of
every module, in module order and per-module insertion order. -/
def runTests (modules : List TestModule) (dryRun : Bool) : List UnitTrace :=
  modules.flatMap fun m => m.assertions.map fun p => runUnit m.id p.1 p.2 dryRun

/-- The settled value of `Promise.all(assertions)` (line 150): if any unit
rejected, the whole run rejects; otherwise the list of resolved
`AssertionResult`s in launch order. -/
def runTestsResult (modules : List TestModule) (dryRun : Bool) :
    Except Unit (List AssertionResult) :=
  let traces := runTests modules dryRun
  if traces.any (·.rejected) then .error () else .ok (traces.map (·.resultRecord))

/-- One step of building `moduleResults` (lines 277-284): push the result
onto the existing group for its `testModuleId`, or append a fresh group. -/
def insertResult (acc : List (String × List AssertionResult)) (r : AssertionResult) :
    List (String × List AssertionResult) :=
  if (acc.map Prod.fst).contains r.testModuleId then
    acc.map fun g => if g.1 = r.testModuleId then (g.1, g.2 ++ [r]) else g
  else acc ++ [(r.testModuleId, [r])]

/-- The insertion-ordered `moduleResults` dictionary (lines 276-284),
modelled as an association list grown by `insertResult`. -/
def groupResults (results : List AssertionResult) :
    List (String × List AssertionResult) :=
  results.foldl insertResult []

/-- `failedAssertions` for one module (lines 289-292). -/
def failedAssertionCount (rs : List AssertionResult) : Nat :=
  rs.countP fun r => !r.result

/-- `failedModules` (lines 286-306): the number of module groups with at
least one failed assertion. -/
def failedModules (results : List AssertionResult) : Nat :=
  (groupResults results).countP fun g => decide (0 < failedAssertionCount g.2)

/-- The results held for one module id in an association-list state: the
concatenation over the matching groups (at most one once keys are known to
be distinct). -/
def lookupGroup (acc : List (String × List AssertionResult)) (id : String) :
    List AssertionResult :=
  ((acc.filter fun g => g.1 == id).map Prod.snd).flatten

/-- A module record as produced by a successful dynamic `import` (line 214).
`assertions = none` models a record without an `assertions` field (or with a
nullish one); `some a` models a present `assertions` object, which in JS is
truthy even when empty.  `id = none` models an absent `id`; a present empty
string is falsy in JS and is also replaced by the file name (line 222). -/
structure LoadedRecord where
  id : Option String
  assertions : Option (List (String × AssertionDef))
deriving Repr, DecidableEq

/-- Events emitted through the consumed logger during discovery. -/
inductive LogEvent where
  | debugLooking (dir : String)
  | debugExcluded (path : String)
  | debugFoundFile (path : String)
  | debugFoundModule (id : String)
  | errorImporting (path msg : String)
  | errorSkipping
deriving Repr, DecidableEq

/-- Whether a log event was emitted through `logger.Error`. -/
def LogEvent.isError : LogEvent → Bool
  | .errorImporting _ _ => true
  | .errorSkipping => true
  | _ => false

/-- A node of the filesystem seen by discovery.  `file load` is a
non-directory entry whose dynamic import would produce `load`;
`dirOk entries` is a directory whose listing succeeds; `dirErr` is a
directory whose `readdir` rejects; `statFail` is an entry whose `stat`
rejects. -/
inductive FsNode where
  | file (load : Except String LoadedRecord)
  | dirOk (entries : List (String × FsNode))
  | dirErr (msg : String)
  | statFail

/-- `entryStats.isDirectory()` (line 199) for an entry whose `stat`
succeeded. -/
def FsNode.isDir : FsNode → Bool
  | .dirOk _ => true
  | .dirErr _ => true
  | _ => false

/-- `join(dir, eachEntry)` (line 197) with `/` as separator. -/
def pathJoin (dir entryName : String) : String := dir ++ "/" ++ entryName

/-- `s.split(c)` for a one-character separator, on the character list of a
string: the JS split semantics used on line 209. -/
def splitOnChar (c : Char) : List Char → List (List Char)
  | [] => [[]]
  | x :: xs =>
    let r := splitOnChar c xs
    if x = c then [] :: r
    else
      match r with
      | [] => [[x]]
      | p :: ps => (x :: p) :: ps

/-- `eachEntry.split('.').pop() === "js"` (line 209). -/
def hasJsExtension (entryName : String) : Bool :=
  (splitOnChar '.' entryName.data).getLastD [] == ['j', 's']

/-- Lines 221-227: a successfully imported record is kept iff its
`assertions` field is truthy (any present object, even an empty mapping);
a missing or falsy `id` is replaced by the entry name.  The `setUp` /
`tearDown` default fill installs no-op hooks and is implicit in the
executor model. -/
def acceptModule (fileName : String) (record : LoadedRecord) : Option TestModule :=
  match record.assertions with
  | some a =>
    some
      { id :=
          match record.id with
          | some i => if i == "" then fileName else i
          | none => fileName
        assertions := a }
  | none => none

mutual

/-- `FindTestModules(dir, ...)` (lines 194-231) on the node standing for
`dir`, returning the emitted log events and either the modules appended for
this subtree or the rejection of the call.  Note on fidelity: the
`try`/`catch` blocks inside `GetEntries` and `GetEntryStats` (lines
161-168, 178-185) wrap only the synchronous construction of a promise, so
a `readdir` or `stat` rejection is never caught there; the rejection
surfaces at the corresponding `await` inside `FindTestModules` and rejects
the whole call.  The model therefore propagates those errors. -/
def findTestModules (excl : List String) (dir : String) :
    FsNode → List LogEvent × Except String (List TestModule)
  | .dirOk entries =>
    let rest := findEntries excl dir entries
    (.debugLooking dir :: rest.1, rest.2)
  | .dirErr e => ([.debugLooking dir], .error e)
  | .file _ => ([.debugLooking dir], .error "ENOTDIR")
  | .statFail => ([.debugLooking dir], .error "ENOTDIR")

/-- The entry loop of `FindTestModules` (lines 196-230).  A `stat`
rejection aborts the loop at once (the `await` on line 198 throws).  A
rejected subdirectory recursion is deferred: the loop keeps scanning, and
the error surfaces at the `await Promise.all` (line 230), rejecting this
call.  An `import` failure is caught, logged, and the file skipped
(lines 215-219). -/
def findEntries (excl : List String) (dir : String) :
    List (String × FsNode) → List LogEvent × Except String (List TestModule)
  | [] => ([], .ok [])
  | (name, node) :: rest =>
    let fullPath := pathJoin dir name
    match node with
    | .statFail => ([], .error "ESTAT")
    | .file load =>
      if hasJsExtension name then
        match load with
        | .error msg =>
          let r := findEntries excl dir rest
          (.debugFoundFile fullPath :: .errorImporting fullPath msg ::
            .errorSkipping :: r.1, r.2)
        | .ok record =>
          match acceptModule name record with
          | some m =>
            let r := findEntries excl dir rest
            (.debugFoundFile fullPath :: .debugFoundModule m.id :: r.1,
              match r.2 with
              | .error e => .error e
              | .ok ms => .ok (m :: ms))
          | none =>
            let r := findEntries excl dir rest
            (.debugFoundFile fullPath :: r.1, r.2)
      else findEntries excl dir rest
    | n =>
      if excl.contains fullPath then
        let r := findEntries excl dir rest
        (.debugExcluded fullPath :: r.1, r.2)
      else
        let c := findTestModules excl fullPath n
        let r := findEntries excl dir rest
        (c.1 ++ r.1,
          match c.2 with
          | .error e => .error e
          | .ok ms =>
            match r.2 with
            | .error e => .error e
            | .ok ms2 => .ok (ms ++ ms2))

end

/-- The discovery loop of `jester` (lines 239-251): roots are scanned in
order inside one `try`; the first rejection aborts (leading to
`process.exit(-1)`), otherwise the shared module list accumulates across
roots. -/
def discoverAll (excl : List String) :
    List (String × FsNode) → Except String (List TestModule)
  | [] => .ok []
  | (p, n) :: rest =>
    match (findTestModules excl p n).2 with
    | .error e => .error e
    | .ok ms =>
      match discoverAll excl rest with
      | .error e => .error e
      | .ok ms2 => .ok (ms ++ ms2)

/-- The inspector session as seen through the three `session.post` calls:
each field is the settlement of the corresponding protocol request. -/
structure CovSession where
  profilerEnable : Except String Unit
  startPrecise : Except String Unit
  takePrecise : Except String String
deriving Repr, DecidableEq

/-- The filesystem seen by the coverage recorder: the listing of the
coverage directory, the set of entry names whose `unlink` rejects, and
whether the snapshot `writeFile` rejects. -/
structure CovFs where
  readdirResult : Except String (List String)
  unlinkFails : List String
  writeFails : Bool
deriving Repr, DecidableEq

/-- Events emitted through the logger by the coverage recorder. -/
inductive CovLog where
  | errorLog (msg : String)
  | debugRemoving (path : String)
  | debugWriting (path : String)
deriving Repr, DecidableEq

/-- `StartCoverage` (lines 19-35): two awaited `session.post` calls with no
`try`/`catch`; the first rejection propagates out of the function — and out
of `jester`, whose call on line 255 is not inside any `try`. -/
def startCoverage (s : CovSession) : Except String Unit :=
  match s.profilerEnable with
  | .error e => .error e
  | .ok _ => s.startPrecise

/-- The deletion loop of `ClearCoverageDirectory` (lines 50-62): skips the
`.gitignore` sentinel, logs and deletes each other entry, and on the first
`unlink` rejection logs the error and returns, leaving the remaining
entries untouched.  Returns the emitted log events and the deleted
entries. -/
def clearLoop (covDir : String) (unlinkFails : List String) :
    List String → List CovLog × List String
  | [] => ([], [])
  | e :: rest =>
    if e == ".gitignore" then clearLoop covDir unlinkFails rest
    else
      let coverageFile := pathJoin covDir e
      if unlinkFails.contains e then
        ([.debugRemoving coverageFile, .errorLog ("EUNLINK " ++ coverageFile)], [])
      else
        let r := clearLoop covDir unlinkFails rest
        (.debugRemoving coverageFile :: r.1, e :: r.2)

/-- `ClearCoverageDirectory` (lines 37-63): a `readdir` rejection is caught
and logged, leaving `entries = []`; then the deletion loop runs. -/
def clearCoverageDirectory (covDir : String) (fs : CovFs) :
    List CovLog × List String :=
  match fs.readdirResult with
  | .error e => ([.errorLog e], [])
  | .ok entries => clearLoop covDir fs.unlinkFails entries

/-- `WriteCoverageResults` (lines 71-103): a failed snapshot request is
logged and the function returns without clearing or writing; otherwise the
directory is (optionally) cleared and one snapshot file named
`coverage-<Date.now()>.json` is written, a write rejection being caught
and logged.  Returns (log events, written file, deleted entries). -/
def writeCoverageResults (s : CovSession) (covDir : String) (doClear : Bool)
    (fs : CovFs) (now : Nat) : List CovLog × Option String × List String :=
  match s.takePrecise with
  | .error e => ([.errorLog e], none, [])
  | .ok _ =>
    let cleared := if doClear then clearCoverageDirectory covDir fs else ([], [])
    let coverageFile := pathJoin covDir ("coverage-" ++ toString now ++ ".json")
    if fs.writeFails then
      (cleared.1 ++ [.debugWriting coverageFile, .errorLog ("EWRITE " ++ coverageFile)],
        none, cleared.2)
    else
      (cleared.1 ++ [.debugWriting coverageFile], some coverageFile, cleared.2)

/-- How a `jester` run ends: `discoveryFail` is the `process.exit(-1)` of
line 250; `startCoverageCrash` is the unhandled rejection escaping the
bare `await StartCoverage(session)` of line 255 (no summary, no exit-code
assignment); `fatalExit` is the `process.exit(-1)` of line 264 (no
module-by-module summary is emitted); `summary c` is the normal path that
writes the full report and sets `process.exitCode = c` (line 313). -/
inductive JesterOutcome where
  | discoveryFail
  | startCoverageCrash (err : String)
  | fatalExit
  | summary (exitCode : Nat)
deriving Repr, DecidableEq

/-- Observable effects of one `jester` run: its outcome, the coverage log
events, the snapshot file written (if any), and the coverage-directory
entries deleted. -/
structure JesterRun where
  outcome : JesterOutcome
  covLogs : List CovLog
  written : Option String
  deleted : List String
deriving Repr, DecidableEq

/-- The consumed run configuration fields used by the core. -/
structure JesterConfig where
  excludeDirs : List String
  dryRun : Bool
  coverageEnabled : Bool
  coverageDir : String
  clearCoverage : Bool
deriving Repr, DecidableEq

/-- Lines 253-314 of `jester`, after discovery has produced `modules`:
start coverage when enabled (a rejection there is unhandled), run the
tests (a fatal rejection exits with `-1` before any coverage write or
summary), then snapshot coverage when enabled, and finally aggregate and
set the exit code. -/
def jesterAfterDiscovery (cfg : JesterConfig) (modules : List TestModule)
    (s : CovSession) (fs : CovFs) (now : Nat) : JesterRun :=
  match (if cfg.coverageEnabled then startCoverage s else .ok ()) with
  | .error e =>
    { outcome := .startCoverageCrash e, covLogs := [], written := none, deleted := [] }
  | .ok _ =>
    match runTestsResult modules cfg.dryRun with
    | .error _ =>
      { outcome := .fatalExit, covLogs := [], written := none, deleted := [] }
    | .ok results =>
      let cov :=
        if cfg.coverageEnabled then
          writeCoverageResults s cfg.coverageDir cfg.clearCoverage fs now
        else ([], none, [])
      { outcome := .summary (failedModules results)
        covLogs := cov.1
        written := cov.2.1
        deleted := cov.2.2 }

/-- The whole `jester` entry point (lines 233-314), with the `exitAfter`
short-circuit of the consumed configuration (line 235) out of scope. -/
def jester (cfg : JesterConfig) (roots : List (String × FsNode))
    (s : CovSession) (fs : CovFs) (now : Nat) : JesterRun :=
  match discoverAll cfg.excludeDirs roots with
  | .error _ =>
    { outcome := .discoveryFail, covLogs := [], written := none, deleted := [] }
  | .ok modules => jesterAfterDiscovery cfg modules s fs now

/-! ## Executor lemmas -/

theorem runUnit_tearDownRan (mid aid : String) (d : AssertionDef) (dry : Bool) :
    (runUnit mid aid d dry).tearDownRan = true := rfl

theorem runUnit_skipped (mid aid : String) (d : AssertionDef) (dry : Bool) :
    (runUnit mid aid d dry).resultRecord.skipped = (dry || d.skip) := by
  cases dry <;> cases h : d.skip <;> simp [runUnit, h]

theorem runUnit_fnInvoked (mid aid : String) (d : AssertionDef) (dry : Bool) :
    (runUnit mid aid d dry).fnInvoked = !(dry || d.skip) := by
  cases dry <;> cases h : d.skip <;> cases hi : invokeAssertion d <;>
    simp [runUnit, h, hi]

theorem runUnit_rejected (mid aid : String) (d : AssertionDef) (dry : Bool) :
    (runUnit mid aid d dry).rejected
      = (!(dry || d.skip) && decide (invokeAssertion d = .otherError)) := by
  cases dry <;> cases h : d.skip <;> cases hi : invokeAssertion d <;>
    simp [runUnit, h, hi]

theorem runUnit_result (mid aid : String) (d : AssertionDef) (dry : Bool) :
    (runUnit mid aid d dry).resultRecord.result
      = !(!(dry || d.skip) && decide (invokeAssertion d = .assertionError)) := by
  cases dry <;> cases h : d.skip <;> cases hi : invokeAssertion d <;>
    simp [runUnit, h, hi]

theorem runUnit_resultRecord (mid aid : String) (d : AssertionDef) (dry : Bool) :
    (runUnit mid aid d dry).resultRecord
      = { testModuleId := mid
          assertionId := aid
          result := !(!(dry || d.skip) && decide (invokeAssertion d = .assertionError))
          skipped := (dry || d.skip) } := by
  cases dry <;> cases h : d.skip <;> cases hi : invokeAssertion d <;>
    simp [runUnit, h, hi]

theorem mem_runTests {modules : List TestModule} {dry : Bool} {t : UnitTrace} :
    t ∈ runTests modules dry ↔
      ∃ m ∈ modules, ∃ p ∈ m.assertions, t = runUnit m.id p.1 p.2 dry := by
  simp only [runTests, List.mem_flatMap, List.mem_map]
  constructor
  · rintro ⟨m, hm, p, hp, rfl⟩
    exact ⟨m, hm, p, hp, rfl⟩
  · rintro ⟨m, hm, p, hp, rfl⟩
    exact ⟨m, hm, p, hp, rfl⟩

/-! ## Claim C1 -/

/-- **C1**: for every assertion unit launched by the executor's run, the
`AssertionResult` field `skipped` is true iff the configuration's `dryRun`
is set or the assertion's `skip` flag is set, and whenever `skipped` is
true the assertion function is not invoked and the `result` field is
true. -/
theorem C1_skipped_units (modules : List TestModule) (dryRun : Bool)
    (m : TestModule) (p : String × AssertionDef)
    (hm : m ∈ modules) (hp : p ∈ m.assertions) :
    runUnit m.id p.1 p.2 dryRun ∈ runTests modules dryRun
    ∧ (runUnit m.id p.1 p.2 dryRun).resultRecord.skipped = (dryRun || p.2.skip)
    ∧ ((dryRun || p.2.skip) = true →
        (runUnit m.id p.1 p.2 dryRun).fnInvoked = false
        ∧ (runUnit m.id p.1 p.2 dryRun).resultRecord.result = true) := by
  refine ⟨mem_runTests.mpr ⟨m, hm, p, hp, rfl⟩, runUnit_skipped .., ?_⟩
  intro h
  rw [runUnit_fnInvoked, runUnit_result, h]
  simp

/-- Witness for C1: a single-module run with `dryRun = false` and a
`skip`-marked assertion whose body would throw an `AssertionError`; the
unit is skipped, the body is not invoked, and its recorded `result` is
still true. -/
theorem C1_skipped_units_witness :
    (runUnit "m" "a" ⟨some .assertionError, true⟩ false).fnInvoked = false
    ∧ (runUnit "m" "a" ⟨some .assertionError, true⟩ false).resultRecord.result = true :=
  (C1_skipped_units [⟨"m", [("a", ⟨some .assertionError, true⟩)]⟩] false
    ⟨"m", [("a", ⟨some .assertionError, true⟩)]⟩ ("a", ⟨some .assertionError, true⟩)
    (by simp) (by simp)).2.2 (by simp)

/-! ## Claim C7 -/

/-- **C7**: every assertion unit that reaches the invocation step runs the
module's `tearDown`, whether the assertion body completed normally, threw
an `AssertionError`, or threw a fatal non-assertion error — including the
unit whose rejection makes the whole run reject. -/
theorem C7_teardown_always (modules : List TestModule) (dryRun : Bool)
    (t : UnitTrace) (ht : t ∈ runTests modules dryRun) :
    t.tearDownRan = true := by
  obtain ⟨m, -, p, -, rfl⟩ := mem_runTests.mp ht
  rfl

/-- Witness for C7: the unit of a fatally-throwing assertion (a
non-`AssertionError` throw, so the unit rejects) still runs `tearDown`. -/
theorem C7_teardown_always_witness :
    (runUnit "m" "a" ⟨some .otherError, false⟩ false).tearDownRan = true :=
  C7_teardown_always [⟨"m", [("a", ⟨some .otherError, false⟩)]⟩] false _
    (mem_runTests.mpr ⟨⟨"m", [("a", ⟨some .otherError, false⟩)]⟩, by simp,
      ("a", ⟨some .otherError, false⟩), by simp, rfl⟩)

theorem runTests_any_rejected (modules : List TestModule) (dry : Bool) :
    (runTests modules dry).any (·.rejected) = true ↔
      ∃ m ∈ modules, ∃ p ∈ m.assertions,
        (dry || p.2.skip) = false ∧ invokeAssertion p.2 = .otherError := by
  rw [List.any_eq_true]
  constructor
  · rintro ⟨t, ht, hrej⟩
    obtain ⟨m, hm, p, hp, rfl⟩ := mem_runTests.mp ht
    rw [runUnit_rejected] at hrej
    simp only [Bool.and_eq_true, Bool.not_eq_true', decide_eq_true_eq] at hrej
    exact ⟨m, hm, p, hp, hrej.1, hrej.2⟩
  · rintro ⟨m, hm, p, hp, hskip, hinv⟩
    refine ⟨runUnit m.id p.1 p.2 dry, mem_runTests.mpr ⟨m, hm, p, hp, rfl⟩, ?_⟩
    rw [runUnit_rejected, hskip, hinv]
    simp

/-! ## Claim C3 -/

/-- **C3**: a non-skipped assertion throwing a non-`AssertionError` makes
the whole run reject, `jester` exits abnormally (`process.exit(-1)`), and
no module-by-module summary is emitted (`fatalExit` precedes the summary
loop); whereas when no non-skipped assertion throws a non-`AssertionError`
the run resolves and proceeds to the summary, each `AssertionError` merely
recording `result = false` for its unit. -/
theorem C3_fatal_vs_violation (cfg : JesterConfig) (s : CovSession) (fs : CovFs)
    (now : Nat) (modules : List TestModule)
    (hstart : (if cfg.coverageEnabled then startCoverage s else Except.ok ()) = .ok ()) :
    ((∃ m ∈ modules, ∃ p ∈ m.assertions,
        (cfg.dryRun || p.2.skip) = false ∧ invokeAssertion p.2 = .otherError) →
      runTestsResult modules cfg.dryRun = .error ()
      ∧ (jesterAfterDiscovery cfg modules s fs now).outcome = .fatalExit)
    ∧ ((∀ m ∈ modules, ∀ p ∈ m.assertions,
        (cfg.dryRun || p.2.skip) = false → invokeAssertion p.2 ≠ .otherError) →
      ∃ results, runTestsResult modules cfg.dryRun = .ok results
        ∧ (jesterAfterDiscovery cfg modules s fs now).outcome
            = .summary (failedModules results)
        ∧ ∀ m ∈ modules, ∀ p ∈ m.assertions,
            (cfg.dryRun || p.2.skip) = false → invokeAssertion p.2 = .assertionError →
            ({ testModuleId := m.id, assertionId := p.1, result := false,
               skipped := false } : AssertionResult) ∈ results) := by
  constructor
  · intro h
    have hany : (runTests modules cfg.dryRun).any (·.rejected) = true :=
      (runTests_any_rejected modules cfg.dryRun).mpr h
    have herr : runTestsResult modules cfg.dryRun = .error () := by
      simp [runTestsResult, hany]
    exact ⟨herr, by simp [jesterAfterDiscovery, hstart, herr]⟩
  · intro h
    have hany : (runTests modules cfg.dryRun).any (·.rejected) = false := by
      by_contra hc
      rw [Bool.not_eq_false, runTests_any_rejected] at hc
      obtain ⟨m, hm, p, hp, hskip, hinv⟩ := hc
      exact h m hm p hp hskip hinv
    have hok : runTestsResult modules cfg.dryRun
        = .ok ((runTests modules cfg.dryRun).map (·.resultRecord)) := by
      simp [runTestsResult, hany]
    refine ⟨_, hok, by simp [jesterAfterDiscovery, hstart, hok], ?_⟩
    intro m hm p hp hskip hinv
    refine List.mem_map.mpr ⟨runUnit m.id p.1 p.2 cfg.dryRun,
      mem_runTests.mpr ⟨m, hm, p, hp, rfl⟩, ?_⟩
    rw [runUnit_resultRecord, hskip, hinv]
    simp

/-- Witness for C3: a single module whose only assertion throws a plain
runtime error; the run rejects and `jester` takes the abnormal-exit path
without reaching the summary. -/
theorem C3_fatal_vs_violation_witness :
    runTestsResult [⟨"m", [("boom", ⟨some .otherError, false⟩)]⟩] false = .error ()
    ∧ (jesterAfterDiscovery ⟨[], false, false, "cov", false⟩
        [⟨"m", [("boom", ⟨some .otherError, false⟩)]⟩]
        ⟨.ok (), .ok (), .ok ""⟩ ⟨.ok [], [], false⟩ 0).outcome = .fatalExit :=
  (C3_fatal_vs_violation ⟨[], false, false, "cov", false⟩
    ⟨.ok (), .ok (), .ok ""⟩ ⟨.ok [], [], false⟩ 0
    [⟨"m", [("boom", ⟨some .otherError, false⟩)]⟩] (by simp)).1
    ⟨⟨"m", [("boom", ⟨some .otherError, false⟩)]⟩, by simp,
      ("boom", ⟨some .otherError, false⟩), by simp, rfl, rfl⟩

/-! ## Claim C10 -/

/-- **C10**: discovery performs no shape validation of assertion
definitions — acceptance of a record depends only on the presence of its
`assertions` field; and a non-skipped accepted assertion whose definition
lacks a callable `function` field throws a non-`AssertionError` when
invoked, so any run containing its module rejects fatally instead of
recording a per-assertion failure or a discovery error. -/
theorem C10_missing_function_fatal (name : String) (r : LoadedRecord)
    (m : TestModule) (p : String × AssertionDef)
    (hacc : acceptModule name r = some m) (hp : p ∈ m.assertions)
    (hfn : p.2.fn = none) (hskip : p.2.skip = false) :
    (∀ (record : LoadedRecord) (n : String),
      (acceptModule n record).isSome = record.assertions.isSome)
    ∧ invokeAssertion p.2 = .otherError
    ∧ ∀ modules, m ∈ modules → runTestsResult modules false = .error () := by
  refine ⟨?_, ?_, ?_⟩
  · intro record n
    cases h : record.assertions <;> simp [acceptModule, h]
  · simp [invokeAssertion, hfn]
  · intro modules hm
    have hany : (runTests modules false).any (·.rejected) = true :=
      (runTests_any_rejected modules false).mpr
        ⟨m, hm, p, hp, by simp [hskip], by simp [invokeAssertion, hfn]⟩
    simp [runTestsResult, hany]

/-- Witness for C10: a loaded record whose single assertion definition has
no `function` field is accepted by discovery, and the run over its module
rejects. -/
theorem C10_missing_function_fatal_witness :
    runTestsResult [⟨"f.js", [("a", ⟨none, false⟩)]⟩] false = .error () :=
  (C10_missing_function_fatal "f.js" ⟨none, some [("a", ⟨none, false⟩)]⟩
    ⟨"f.js", [("a", ⟨none, false⟩)]⟩ ("a", ⟨none, false⟩)
    (by simp [acceptModule]) (by simp) rfl rfl).2.2
    [⟨"f.js", [("a", ⟨none, false⟩)]⟩] (by simp)


/-! ## Aggregator lemmas -/

theorem keys_insertResult (acc : List (String × List AssertionResult))
    (r : AssertionResult) :
    (insertResult acc r).map Prod.fst =
      if (acc.map Prod.fst).contains r.testModuleId then acc.map Prod.fst
      else acc.map Prod.fst ++ [r.testModuleId] := by
  unfold insertResult
  split
  · rw [List.map_map]
    refine List.map_congr_left ?_
    intro g _
    by_cases h : g.1 = r.testModuleId <;> simp [h]
  · simp

theorem filter_keys_eq_nil (acc : List (String × List AssertionResult))
    (i : String) (h : i ∉ acc.map Prod.fst) :
    acc.filter (fun g => g.1 == i) = [] := by
  rw [List.filter_eq_nil_iff]
  intro g hg
  simp only [beq_iff_eq]
  intro hgi
  exact h (List.mem_map.mpr ⟨g, hg, hgi⟩)

theorem filter_keys_singleton (acc : List (String × List AssertionResult))
    (i : String) (hnd : (acc.map Prod.fst).Nodup) (hmem : i ∈ acc.map Prod.fst) :
    ∃ g, acc.filter (fun g => g.1 == i) = [g] ∧ g.1 = i := by
  induction acc with
  | nil => simp at hmem
  | cons h t ih =>
    simp only [List.map_cons, List.nodup_cons] at hnd
    rcases List.mem_cons.mp hmem with heq | hmt
    · subst heq
      refine ⟨h, ?_, rfl⟩
      have ht := filter_keys_eq_nil t h.1 hnd.1
      simp [List.filter_cons, ht]
    · have hne : (h.1 == i) = false := by
        simp only [beq_eq_false_iff_ne, ne_eq]
        intro hc
        exact hnd.1 (hc ▸ hmt)
      obtain ⟨g, hg, hgi⟩ := ih hnd.2 hmt
      exact ⟨g, by simp [List.filter_cons, hne, hg], hgi⟩

theorem lookupGroup_self (gs : List (String × List AssertionResult))
    (hnd : (gs.map Prod.fst).Nodup) (g : String × List AssertionResult)
    (hg : g ∈ gs) : lookupGroup gs g.1 = g.2 := by
  induction gs with
  | nil => simp at hg
  | cons h t ih =>
    simp only [List.map_cons, List.nodup_cons] at hnd
    rcases List.mem_cons.mp hg with heq | hgt
    · subst heq
      have ht := filter_keys_eq_nil t g.1 hnd.1
      simp [lookupGroup, List.filter_cons, ht]
    · have hne : (h.1 == g.1) = false := by
        simp only [beq_eq_false_iff_ne, ne_eq]
        intro hc
        exact hnd.1 (hc ▸ List.mem_map.mpr ⟨g, hgt, rfl⟩)
      have := ih hnd.2 hgt
      simpa [lookupGroup, List.filter_cons, hne] using this

theorem lookupGroup_insertResult (acc : List (String × List AssertionResult))
    (r : AssertionResult) (i : String) (hnd : (acc.map Prod.fst).Nodup) :
    lookupGroup (insertResult acc r) i =
      lookupGroup acc i ++ (if r.testModuleId == i then [r] else []) := by
  unfold insertResult
  split
  · rename_i hcont
    unfold lookupGroup
    rw [List.filter_map]
    simp only [Function.comp_def]
    have hfe : (acc.filter fun g =>
        (if g.1 = r.testModuleId then (g.1, g.2 ++ [r]) else g).1 == i)
        = acc.filter fun g => g.1 == i := by
      refine List.filter_congr ?_
      intro g _
      by_cases h : g.1 = r.testModuleId <;> simp [h]
    rw [hfe]
    by_cases hir : r.testModuleId = i
    · subst hir
      obtain ⟨g, hg, hgi⟩ :=
        filter_keys_singleton acc r.testModuleId hnd (by simpa using hcont)
      rw [hg]
      simp [hgi]
    · have hmap : (acc.filter fun g => g.1 == i).map
          (fun g => if g.1 = r.testModuleId then (g.1, g.2 ++ [r]) else g)
          = acc.filter fun g => g.1 == i := by
        conv_rhs => rw [← List.map_id (acc.filter fun g => g.1 == i)]
        refine List.map_congr_left ?_
        intro g hgm
        have h1 : g.1 = i := by simpa using (List.mem_filter.mp hgm).2
        have h2 : ¬g.1 = r.testModuleId := by
          rw [h1]
          exact fun hc => hir hc.symm
        simp [h2]
      rw [hmap]
      simp [hir]
  · unfold lookupGroup
    rw [List.filter_append]
    by_cases hir : r.testModuleId = i <;> simp [hir]

theorem groupResults_concat (rs : List AssertionResult) (r : AssertionResult) :
    groupResults (rs ++ [r]) = insertResult (groupResults rs) r := by
  simp [groupResults, List.foldl_append]

theorem groupResults_spec (results : List AssertionResult) :
    ((groupResults results).map Prod.fst).Nodup
    ∧ (∀ i, i ∈ (groupResults results).map Prod.fst ↔
        i ∈ results.map (·.testModuleId))
    ∧ (∀ i, lookupGroup (groupResults results) i
        = results.filter (fun rr => rr.testModuleId == i)) := by
  induction results using List.reverseRecOn with
  | nil => simp [groupResults, lookupGroup]
  | append_singleton rs r ih =>
    obtain ⟨hnd, hmem, hlook⟩ := ih
    rw [groupResults_concat]
    refine ⟨?_, ?_, ?_⟩
    · rw [keys_insertResult]
      split
      · exact hnd
      · rename_i hcont
        refine List.Nodup.append hnd (List.nodup_singleton _) ?_
        intro a ha hb
        rw [List.mem_singleton] at hb
        subst hb
        exact hcont (by simpa using ha)
    · intro i
      rw [keys_insertResult]
      split
      · rename_i hcont
        rw [hmem i]
        simp only [List.map_append, List.map_cons, List.map_nil, List.mem_append,
          List.mem_singleton]
        constructor
        · exact fun h' => Or.inl h'
        · rintro (h' | h')
          · exact h'
          · subst h'
            exact (hmem r.testModuleId).mp (by simpa using hcont)
      · simp only [List.map_append, List.map_cons, List.map_nil, List.mem_append,
          List.mem_singleton]
        rw [hmem i]
    · intro i
      rw [lookupGroup_insertResult _ _ _ hnd, hlook i, List.filter_append]
      by_cases h : (r.testModuleId == i) = true <;>
        simp [List.filter_cons, h]

/-! ## Claim C2 -/

/-- **C2**: `failedModules` counts each module once, no matter how many of
its assertions failed: it equals the number of distinct `testModuleId`s
owning at least one result with `result = false`; it is `0` when every
result is true (all passed or skipped); and the exit code recorded by the
summary path (`process.exitCode = failedModules`, line 313) is exactly this
count. -/
theorem C2_failed_module_count (results : List AssertionResult) :
    failedModules results
      = ((results.map (·.testModuleId)).dedup.filter
          (fun i => results.any fun rr => rr.testModuleId == i && !rr.result)).length
    ∧ ((∀ rr ∈ results, rr.result = true) → failedModules results = 0)
    ∧ (∀ (cfg : JesterConfig) (s : CovSession) (fs : CovFs) (now : Nat)
        (modules : List TestModule),
        (if cfg.coverageEnabled then startCoverage s else Except.ok ()) = .ok () →
        runTestsResult modules cfg.dryRun = .ok results →
        (jesterAfterDiscovery cfg modules s fs now).outcome
          = .summary (failedModules results)) := by
  obtain ⟨hnd, hmem, hlook⟩ := groupResults_spec results
  have key : failedModules results
      = ((results.map (·.testModuleId)).dedup.filter
          (fun i => results.any fun rr => rr.testModuleId == i && !rr.result)).length := by
    unfold failedModules
    have hA : ((groupResults results).countP
          fun g => decide (0 < failedAssertionCount g.2))
        = ((groupResults results).countP fun g =>
            decide (0 < failedAssertionCount
              (results.filter fun rr => rr.testModuleId == g.1))) := by
      refine List.countP_congr ?_
      intro g hgmem
      have hg2 : g.2 = results.filter fun rr => rr.testModuleId == g.1 := by
        rw [← hlook g.1, lookupGroup_self _ hnd g hgmem]
      rw [← hg2]
    have hB : ((groupResults results).countP fun g =>
          decide (0 < failedAssertionCount
            (results.filter fun rr => rr.testModuleId == g.1)))
        = (((groupResults results).map Prod.fst).countP fun i =>
            decide (0 < failedAssertionCount
              (results.filter fun rr => rr.testModuleId == i))) := by
      rw [List.countP_map]
      rfl
    have hperm : List.Perm ((groupResults results).map Prod.fst)
        ((results.map (·.testModuleId)).dedup) :=
      (List.perm_ext_iff_of_nodup hnd (List.nodup_dedup _)).mpr
        (fun a => by rw [hmem a, List.mem_dedup])
    have hC := hperm.countP_eq fun i =>
      decide (0 < failedAssertionCount
        (results.filter fun rr => rr.testModuleId == i))
    have hD : (((results.map (·.testModuleId)).dedup).countP fun i =>
          decide (0 < failedAssertionCount
            (results.filter fun rr => rr.testModuleId == i)))
        = (((results.map (·.testModuleId)).dedup).countP
            fun i => results.any fun rr => rr.testModuleId == i && !rr.result) := by
      refine List.countP_congr ?_
      intro i _
      simp only [decide_eq_true_eq, failedAssertionCount, List.countP_pos_iff,
        List.mem_filter, List.any_eq_true, Bool.and_eq_true]
      constructor
      · rintro ⟨rr, ⟨hrr, hei⟩, hres⟩
        exact ⟨rr, hrr, hei, hres⟩
      · rintro ⟨rr, hrr, hei, hres⟩
        exact ⟨rr, ⟨hrr, hei⟩, hres⟩
    rw [hA, hB, hC, hD, List.countP_eq_length_filter]
  refine ⟨key, ?_, ?_⟩
  · intro hall
    rw [key]
    have hnil : ((results.map (·.testModuleId)).dedup.filter
        (fun i => results.any fun rr => rr.testModuleId == i && !rr.result)) = [] := by
      rw [List.filter_eq_nil_iff]
      intro i _
      intro hp
      rw [List.any_eq_true] at hp
      obtain ⟨rr, hrr, hb⟩ := hp
      rw [Bool.and_eq_true] at hb
      have := hall rr hrr
      rw [this] at hb
      simpa using hb.2
    rw [hnil]
    rfl
  · intro cfg s fs now modules hstart hok
    simp [jesterAfterDiscovery, hstart, hok]

/-- Witness for C2: a run in which every assertion result is true has a
failed-module count (and hence summary exit code) of zero. -/
theorem C2_failed_module_count_witness :
    failedModules [⟨"A", "a1", true, false⟩, ⟨"B", "b1", true, true⟩] = 0 :=
  (C2_failed_module_count [⟨"A", "a1", true, false⟩, ⟨"B", "b1", true, true⟩]).2.1
    (by decide)

/-! ## Claim C6 -/

/-- **C6**: a directory entry whose full path is listed in `excludeDirs`
is skipped entirely: the scan of its parent is the same whatever the
excluded subtree contains (so nothing under it is recursed into, loaded,
or logged — not even a file that would fail to load), and the only trace
of the entry is one debug "excluded" event. -/
theorem C6_excluded_dir_skipped (excl : List String) (dir name : String)
    (node₁ node₂ : FsNode) (rest : List (String × FsNode))
    (h1 : node₁.isDir = true) (h2 : node₂.isDir = true)
    (hexcl : excl.contains (pathJoin dir name) = true) :
    findEntries excl dir ((name, node₁) :: rest)
        = findEntries excl dir ((name, node₂) :: rest)
    ∧ findEntries excl dir ((name, node₁) :: rest)
        = (.debugExcluded (pathJoin dir name) :: (findEntries excl dir rest).1,
            (findEntries excl dir rest).2) := by
  have step : ∀ n : FsNode, n.isDir = true →
      findEntries excl dir ((name, n) :: rest)
        = (.debugExcluded (pathJoin dir name) :: (findEntries excl dir rest).1,
            (findEntries excl dir rest).2) := by
    intro n hn
    have hmem : pathJoin dir name ∈ excl := by simpa using hexcl
    cases n with
    | file l => simp [FsNode.isDir] at hn
    | statFail => simp [FsNode.isDir] at hn
    | dirOk es => simp [findEntries, hmem]
    | dirErr e => simp [findEntries, hmem]
  exact ⟨(step node₁ h1).trans (step node₂ h2).symm, step node₁ h1⟩

/-- Witness for C6: with `excludeDirs = ["root/fixtures"]`, a `fixtures`
directory containing a file that would fail to load scans identically to an
empty one. -/
theorem C6_excluded_dir_skipped_witness :
    findEntries ["root/fixtures"] "root"
        [("fixtures", .dirOk [("broken.js", .file (.error "SyntaxError"))])]
      = findEntries ["root/fixtures"] "root" [("fixtures", .dirOk [])] :=
  (C6_excluded_dir_skipped ["root/fixtures"] "root" "fixtures"
    (.dirOk [("broken.js", .file (.error "SyntaxError"))]) (.dirOk []) []
    rfl rfl (by decide)).1

/-! ## Claim C5 -/

/-- Counterexample to C5 as stated: a successfully loaded record whose
`assertions` mapping is present but **empty** is still appended as a
`TestModule` — the truthiness check `if (module['assertions'])` (line 221)
accepts any present object, so "non-empty" is not required. -/
theorem C5_counterexample :
    (findTestModules [] "root"
        (.dirOk [("empty.js", .file (.ok ⟨none, some []⟩))])).2
      = .ok [⟨"empty.js", []⟩] := by
  have hjs : hasJsExtension "empty.js" = true := by decide
  simp [findTestModules, findEntries, acceptModule, hjs]

/-- **C5 (amended)**: a successfully loaded record is appended as a
`TestModule` iff it exposes an `assertions` mapping at all (empty or not);
a record without one is silently ignored — the only trace is the debug
"Found file" event, no error is logged and nothing is appended. -/
theorem C5_accept_iff_present (excl : List String) (dir name : String)
    (r : LoadedRecord) (rest : List (String × FsNode))
    (hjs : hasJsExtension name = true) :
    ((acceptModule name r).isSome = r.assertions.isSome)
    ∧ (r.assertions = none →
        findEntries excl dir ((name, .file (.ok r)) :: rest)
          = (.debugFoundFile (pathJoin dir name) :: (findEntries excl dir rest).1,
              (findEntries excl dir rest).2))
    ∧ (∀ m, acceptModule name r = some m →
        findEntries excl dir ((name, .file (.ok r)) :: rest)
          = (.debugFoundFile (pathJoin dir name) :: .debugFoundModule m.id ::
              (findEntries excl dir rest).1,
              match (findEntries excl dir rest).2 with
              | .error e => .error e
              | .ok ms => .ok (m :: ms))) := by
  refine ⟨?_, ?_, ?_⟩
  · cases h : r.assertions <;> simp [acceptModule, h]
  · intro hnone
    simp [findEntries, hjs, acceptModule, hnone]
  · intro m hacc
    simp [findEntries, hjs, hacc]

/-- Witness for C5 (amended): a loaded record with no `assertions` field is
ignored without any error log. -/
theorem C5_accept_iff_present_witness :
    findEntries [] "root" [("plain.js", .file (.ok ⟨some "x", none⟩))]
      = (.debugFoundFile (pathJoin "root" "plain.js") ::
          (findEntries [] "root" []).1, (findEntries [] "root" []).2) :=
  (C5_accept_iff_present [] "root" "plain.js" ⟨some "x", none⟩ [] (by decide)).2.1 rfl

/-! ## Claim C4 -/

/-- **C4** is contradicted by the code: the `try`/`catch` inside
`GetEntries` and `GetEntryStats` wraps only the synchronous promise
construction, so `stat`/`readdir` rejections are never caught, logged or
isolated — they reject the whole discovery (leading to `process.exit(-1)`
in `jester`).  This theorem evaluates the model at the failing inputs:
(1) a failed `stat` on one entry aborts the scan with no error logged and
the healthy sibling module discarded; (2) a failed directory listing
inside the tree likewise rejects the whole call; (3) only a failed dynamic
load is logged and isolated, as the claim says. -/
theorem C4_stat_error_aborts_discovery :
    ((findTestModules [] "root"
        (.dirOk [("a.js", .statFail),
          ("b.js", .file (.ok ⟨none, some [("t", ⟨some .ok, false⟩)]⟩))])).2
      = .error "ESTAT"
    ∧ (findTestModules [] "root"
        (.dirOk [("a.js", .statFail),
          ("b.js", .file (.ok ⟨none, some [("t", ⟨some .ok, false⟩)]⟩))])).1.all
        (fun lg => !lg.isError) = true)
    ∧ (findTestModules [] "root"
        (.dirOk [("sub", .dirErr "EACCES"),
          ("b.js", .file (.ok ⟨none, some [("t", ⟨some .ok, false⟩)]⟩))])).2
      = .error "EACCES"
    ∧ ((findTestModules [] "root"
        (.dirOk [("bad.js", .file (.error "SyntaxError")),
          ("b.js", .file (.ok ⟨none, some [("t", ⟨some .ok, false⟩)]⟩))])).2
      = .ok [⟨"b.js", [("t", ⟨some .ok, false⟩)]⟩]
    ∧ (findTestModules [] "root"
        (.dirOk [("bad.js", .file (.error "SyntaxError")),
          ("b.js", .file (.ok ⟨none, some [("t", ⟨some .ok, false⟩)]⟩))])).1.any
        (fun lg => lg.isError) = true) := by
  have hb : hasJsExtension "b.js" = true := by decide
  have hbad : hasJsExtension "bad.js" = true := by decide
  refine ⟨⟨?_, ?_⟩, ?_, ?_, ?_⟩ <;>
    simp [findTestModules, findEntries, acceptModule, hb, hbad, LogEvent.isError]

/-! ## Coverage lemmas -/

theorem clearLoop_sentinel (covDir : String) (uf : List String)
    (entries : List String) : ".gitignore" ∉ (clearLoop covDir uf entries).2 := by
  induction entries with
  | nil => simp [clearLoop]
  | cons e rest ih =>
    by_cases h : (e == ".gitignore") = true
    · simpa [clearLoop, h] using ih
    · have he : ¬(".gitignore" = e) := fun hc => h (by simp [hc.symm])
      by_cases h2 : e ∈ uf
      · simp [clearLoop, h, h2]
      · simp [clearLoop, h, h2, List.mem_cons, he, ih]
  
theorem clearLoop_all (covDir : String) (entries : List String) :
    (clearLoop covDir [] entries).2
      = entries.filter (fun e => !(e == ".gitignore")) := by
  induction entries with
  | nil => simp [clearLoop]
  | cons e rest ih =>
    by_cases h : (e == ".gitignore") = true
    · simp [clearLoop, List.filter_cons, h, ih]
    · simp [clearLoop, List.filter_cons, h, ih]

/-! ## Claim C8 -/

/-- Counterexample to C8 as stated: a failure **starting** coverage is not
logged and is not best-effort — `await StartCoverage(session)` (line 255)
is outside every `try`, so the rejection escapes `jester` as an unhandled
rejection, aborting the run before any assertion executes and changing the
process outcome. -/
theorem C8_counterexample :
    (jester ⟨[], false, true, "cov", false⟩ [] ⟨.error "EPERM", .ok (), .ok ""⟩
        ⟨.ok [], [], false⟩ 0).outcome = .startCoverageCrash "EPERM" := rfl

/-- **C8 (amended)**: every coverage failure in stopping, snapshotting,
clearing or persisting is logged and best-effort — the run outcome (and so
the exit code) is the same whatever the snapshot request, the coverage
filesystem, or the timestamp do, provided the two start calls behave the
same; when no snapshot is obtainable the recorder logs the channel error
and returns without clearing or writing anything; and a failed snapshot
write is logged while producing no file.  A failure **starting** coverage,
by contrast, escapes as an unhandled rejection (see the counterexample). -/
theorem C8_coverage_best_effort (cfg : JesterConfig) (roots : List (String × FsNode))
    (s₁ s₂ : CovSession) (fs₁ fs₂ : CovFs) (now₁ now₂ : Nat)
    (hen : s₁.profilerEnable = s₂.profilerEnable)
    (hst : s₁.startPrecise = s₂.startPrecise) :
    (jester cfg roots s₁ fs₁ now₁).outcome = (jester cfg roots s₂ fs₂ now₂).outcome
    ∧ (∀ (covDir : String) (doClear : Bool) (e : String),
        s₁.takePrecise = .error e →
        writeCoverageResults s₁ covDir doClear fs₁ now₁ = ([.errorLog e], none, []))
    ∧ (∀ (covDir : String) (doClear : Bool) (d : String),
        s₁.takePrecise = .ok d → fs₁.writeFails = true →
        (writeCoverageResults s₁ covDir doClear fs₁ now₁).2.1 = none
        ∧ (.errorLog ("EWRITE " ++ pathJoin covDir
              ("coverage-" ++ toString now₁ ++ ".json")))
            ∈ (writeCoverageResults s₁ covDir doClear fs₁ now₁).1) := by
  refine ⟨?_, ?_, ?_⟩
  · have hsc : startCoverage s₁ = startCoverage s₂ := by
      unfold startCoverage
      rw [hen, hst]
    cases hdisc : discoverAll cfg.excludeDirs roots with
    | error e => simp [jester, hdisc]
    | ok modules =>
      simp only [jester, hdisc]
      unfold jesterAfterDiscovery
      rw [hsc]
      cases hstart : (if cfg.coverageEnabled then startCoverage s₂ else Except.ok ()) with
      | error e => rfl
      | ok u =>
        cases hrun : runTestsResult modules cfg.dryRun with
        | error e => rfl
        | ok results => rfl
  · intro covDir doClear e htake
    simp [writeCoverageResults, htake]
  · intro covDir doClear d htake hwf
    simp [writeCoverageResults, htake, hwf]

/-- Witness for C8 (amended): two runs over the same (empty) module set,
one with a working coverage filesystem and snapshot channel and one where
both snapshotting and writing fail, end with the same outcome; and the
recorder with a dead channel writes and deletes nothing. -/
theorem C8_coverage_best_effort_witness :
    (jester ⟨[], false, true, "cov", true⟩ [] ⟨.ok (), .ok (), .ok "data"⟩
        ⟨.ok ["x.json"], [], false⟩ 1).outcome
      = (jester ⟨[], false, true, "cov", true⟩ [] ⟨.ok (), .ok (), .error "gone"⟩
          ⟨.error "EIO", ["y"], true⟩ 2).outcome
    ∧ writeCoverageResults ⟨.ok (), .ok (), .error "gone"⟩ "cov" true
        ⟨.error "EIO", ["y"], true⟩ 2 = ([.errorLog "gone"], none, []) :=
  ⟨(C8_coverage_best_effort ⟨[], false, true, "cov", true⟩ []
      ⟨.ok (), .ok (), .ok "data"⟩ ⟨.ok (), .ok (), .error "gone"⟩
      ⟨.ok ["x.json"], [], false⟩ ⟨.error "EIO", ["y"], true⟩ 1 2 rfl rfl).1,
    (C8_coverage_best_effort ⟨[], false, true, "cov", true⟩ []
      ⟨.ok (), .ok (), .error "gone"⟩ ⟨.ok (), .ok (), .ok "data"⟩
      ⟨.error "EIO", ["y"], true⟩ ⟨.ok ["x.json"], [], false⟩ 2 1 rfl rfl).2.1
      "cov" true "gone" rfl⟩

/-! ## Claim C9 -/

/-- **C9**: on a run that reaches the coverage write with a snapshot in
hand and a working `writeFile`, exactly one snapshot file is produced,
named `coverage-<unix-epoch-millis>.json` inside the coverage directory
(the model's single `written` slot mirrors the single `writeFile` call
site, line 96); and the clear operation never deletes the `.gitignore`
sentinel, while with no unlink failures it deletes every other listed
entry. -/
theorem C9_snapshot_and_sentinel (cfg : JesterConfig) (roots : List (String × FsNode))
    (s : CovSession) (fs : CovFs) (now : Nat) (modules : List TestModule)
    (results : List AssertionResult) (d : String)
    (hen : cfg.coverageEnabled = true)
    (hdisc : discoverAll cfg.excludeDirs roots = .ok modules)
    (hstart : startCoverage s = .ok ())
    (hrun : runTestsResult modules cfg.dryRun = .ok results)
    (hsnap : s.takePrecise = .ok d)
    (hw : fs.writeFails = false) :
    (jester cfg roots s fs now).written
      = some (pathJoin cfg.coverageDir ("coverage-" ++ toString now ++ ".json"))
    ∧ (∀ (covDir : String) (fs2 : CovFs),
        ".gitignore" ∉ (clearCoverageDirectory covDir fs2).2)
    ∧ (∀ (covDir : String) (fs2 : CovFs) (entries : List String),
        fs2.readdirResult = .ok entries → fs2.unlinkFails = [] →
        (clearCoverageDirectory covDir fs2).2
          = entries.filter (fun e => !(e == ".gitignore"))) := by
  refine ⟨?_, ?_, ?_⟩
  · simp only [jester, hdisc]
    unfold jesterAfterDiscovery
    rw [hen]
    simp only [if_true, hstart, hrun]
    simp [writeCoverageResults, hsnap, hw]
  · intro covDir fs2
    unfold clearCoverageDirectory
    cases h : fs2.readdirResult with
    | error e => simp
    | ok entries => exact clearLoop_sentinel covDir fs2.unlinkFails entries
  · intro covDir fs2 entries hrd huf
    unfold clearCoverageDirectory
    rw [hrd, huf]
    exact clearLoop_all covDir entries

/-- Witness for C9: a concrete coverage-enabled run over an empty module
set writes exactly the file `cov/coverage-42.json`. -/
theorem C9_snapshot_and_sentinel_witness :
    (jester ⟨[], false, true, "cov", true⟩ [] ⟨.ok (), .ok (), .ok "data"⟩
        ⟨.ok ["old.json", ".gitignore"], [], false⟩ 42).written
      = some (pathJoin "cov" ("coverage-" ++ toString 42 ++ ".json")) :=
  (C9_snapshot_and_sentinel ⟨[], false, true, "cov", true⟩ []
    ⟨.ok (), .ok (), .ok "data"⟩ ⟨.ok ["old.json", ".gitignore"], [], false⟩ 42
    [] [] "data" rfl rfl rfl rfl rfl rfl).1
